import Mathlib

/-!
Verification of the MindMates browser chat client (script.js).

The script is shallowly embedded: DOM state (chat box contents, input field,
mode, recording flag) becomes an explicit `ClientState`; each event handler
or async function becomes a pure function from the state and the outcome of
its network or device interaction to the new state, the list of HTTP requests
it issued, and the list of messages it rendered.  Fetch outcomes model the
three ways a browser fetch can go: the promise rejects (transport failure),
the response arrives but its body is not valid JSON, or a JSON body arrives
with some subset of the fields the script reads.
-/

namespace MindMates

/-- A character-by-character global replacement, the embedding of the
JavaScript `text.replace(/c/g, r)` for a single-character pattern `c`. -/
def replaceChar (p : Char) (r : List Char) : List Char → List Char
  | [] => []
  | c :: cs => (if c = p then r else [c]) ++ replaceChar p r cs

/-- The characters of the replacement string for a literal less-than sign. -/
def ltEscape : List Char := ['&', 'l', 't', ';']

/-- The characters of the replacement string for a literal greater-than sign. -/
def gtEscape : List Char := ['&', 'g', 't', ';']

/-- `text.replace(/</g, "&lt;").replace(/>/g, "&gt;")` from `displayMessage`. -/
def sanitizeChars (t : List Char) : List Char :=
  replaceChar '>' gtEscape (replaceChar '<' ltEscape t)

/-- The sanitized text inserted into the innerHTML of a message element. -/
def sanitize (t : String) : String := ⟨sanitizeChars t.data⟩

/-- One rendered line of the chat box.  `line` is the sanitized text part of
the innerHTML; `speakPayload` records the argument captured by the listen
icon click handler (`speakIcon.onclick = () => speakText(text)`) when the
icon is attached, and is `none` when no icon is attached. -/
structure RenderedMsg where
  sender : String
  line : String
  speakPayload : Option String
deriving DecidableEq, Repr

/-- The `displayMessage(sender, text, canSpeak)` function: sanitize the text
and, only for speakable MindMate messages, attach a listen icon that captures
the original (unsanitized) text. -/
def displayMessage (sender text : String) (canSpeak : Bool) : RenderedMsg :=
  { sender := sender
    line := sanitize text
    speakPayload := if canSpeak && (sender == "MindMate") then some text else none }

/-- The full innerHTML assigned to the message paragraph element. -/
def messageHTML (sender text : String) : String :=
  "<strong>" ++ sender ++ ":</strong> " ++ sanitize text

/-- An HTTP request issued by the script, identified by endpoint and body. -/
inductive Request where
  | chat (message : String) (chat_type : String)
  | speechToText (payload : List Nat)
  | textToSpeech (text : String)
deriving DecidableEq, Repr

/-- The JSON body of a `/chat` response, as far as the script reads it:
only the `response` field, `none` when the field is absent. -/
structure ChatJson where
  response : Option String
deriving DecidableEq, Repr

/-- Outcome of a `fetch("/chat", ...)`: the promise rejects, or a response
arrives with an `ok` flag, a status, and a body that either fails to parse
as JSON (`none`) or parses to a `ChatJson`. -/
inductive ChatOutcome where
  | reject
  | response (ok : Bool) (status : Nat) (body : Option ChatJson)
deriving DecidableEq, Repr

/-- The mutable page state the script manipulates: rendered chat lines, the
input field value, the current chat mode, whether the voice button carries
the `recording` class, and which mode button carries the `active` class. -/
structure ClientState where
  chatBox : List RenderedMsg
  userInput : String
  currentChatMode : String
  recording : Bool
  activeModeButton : String
deriving DecidableEq, Repr

/-- The page state at script load. -/
def initialState : ClientState :=
  { chatBox := []
    userInput := ""
    currentChatMode := "mental_health"
    recording := false
    activeModeButton := "mental_health" }

/-- The fixed greeting text sent by `sendInitialGreeting`. -/
def greetingText : String := "Hello MindMate, I'm here."

/-- The fixed failure text rendered by the catch of `sendInitialGreeting`. -/
def greetingFailText : String :=
  "I'm sorry, I couldn't start our conversation. Please try refreshing the page."

/-- The message rendered by the catch branch of `sendInitialGreeting`. -/
def greetFailMsg : RenderedMsg := displayMessage "MindMate" greetingFailText false

/-- `sendInitialGreeting()`: posts the fixed greeting with the current mode
and renders the reply.  The status is never inspected; a rejected fetch, an
unparseable body, or a missing `response` field (which makes `displayMessage`
throw on `undefined` inside the `try`) lands in the catch, which renders the
fixed failure message.  Returns the issued requests and the rendered lines. -/
def sendInitialGreeting (mode : String) (o : ChatOutcome) :
    List Request × List RenderedMsg :=
  ([Request.chat greetingText mode],
   match o with
   | ChatOutcome.reject => [greetFailMsg]
   | ChatOutcome.response _ _ none => [greetFailMsg]
   | ChatOutcome.response _ _ (some b) =>
       match b.response with
       | some r => [displayMessage "MindMate" r true]
       | none => [greetFailMsg])

/-- A host-page history entry `{role, text}`. -/
structure HistMsg where
  role : String
  text : String
deriving DecidableEq, Repr

/-- How `window.onload` renders one history entry. -/
def renderHistoryEntry (m : HistMsg) : RenderedMsg :=
  displayMessage (if m.role == "user" then "You" else "MindMate") m.text
    (m.role == "model")

/-- `window.onload`: replay a non-empty `initialHistory` if defined, else
send the initial greeting.  `none` models `initialHistory` being undefined. -/
def onload (initialHistory : Option (List HistMsg)) (mode : String)
    (o : ChatOutcome) : List Request × List RenderedMsg :=
  match initialHistory with
  | some h =>
      if h.length > 0 then ([], h.map renderHistoryEntry)
      else sendInitialGreeting mode o
  | none => sendInitialGreeting mode o

/-- The characters of `s.trim()`: leading and trailing whitespace removed. -/
def trimChars (t : List Char) : List Char :=
  ((t.dropWhile Char.isWhitespace).reverse.dropWhile Char.isWhitespace).reverse

/-- The JavaScript `userInput.value.trim()`. -/
def jsTrim (s : String) : String := ⟨trimChars s.data⟩

/-- The fixed failure text rendered by the catch of `sendMessage`. -/
def sendFailText : String :=
  "Sorry, I'm having trouble responding right now. Please try again."

/-- The message rendered by the catch branch of `sendMessage`. -/
def sendFailMsg : RenderedMsg := displayMessage "MindMate" sendFailText false

/-- `sendMessage()`: no-op when the trimmed input is empty; otherwise echo
the user text, clear the input, post to `/chat`, and on success render the
reply as speakable.  A rejected fetch, a non-ok status (thrown explicitly),
an unparseable body, or a missing `response` field all land in the catch,
which renders the fixed failure message. -/
def sendMessage (st : ClientState) (o : ChatOutcome) :
    ClientState × List Request × List RenderedMsg :=
  let userText := jsTrim st.userInput
  if userText == "" then (st, [], [])
  else
    let echo := displayMessage "You" userText false
    let st1 : ClientState := { st with chatBox := st.chatBox ++ [echo], userInput := "" }
    let req := Request.chat userText st.currentChatMode
    let fail := ({ st1 with chatBox := st1.chatBox ++ [sendFailMsg] },
                 [req], [echo, sendFailMsg])
    match o with
    | ChatOutcome.reject => fail
    | ChatOutcome.response ok _ body =>
        if ok then
          match body with
          | none => fail
          | some b =>
              match b.response with
              | some r =>
                  let reply := displayMessage "MindMate" r true
                  ({ st1 with chatBox := st1.chatBox ++ [reply] }, [req], [echo, reply])
              | none => fail
        else fail

/-- The JSON body of a non-ok `/text_to_speech` response, as far as the
script reads it: only the `error` field. -/
structure TtsErrJson where
  error : Option String
deriving DecidableEq, Repr

/-- Outcome of a `fetch("/text_to_speech", ...)`: rejection, an ok response
whose body is an audio blob, or a non-ok response whose body either fails to
parse (`none`) or carries an optional `error` field. -/
inductive TtsOutcome where
  | reject
  | success (clip : List Nat)
  | failure (status : Nat) (body : Option TtsErrJson)
deriving DecidableEq, Repr

/-- The fixed failure text rendered by the catch of `speakText`. -/
def ttsFailText : String := "Failed to convert response to speech."

/-- The System line rendered on a non-ok `/text_to_speech` response: the
template literal stringifies a missing `error` field as `undefined`. -/
def ttsErrText (e : Option String) : String :=
  "Text-to-Speech Error: " ++ (match e with | some s => s | none => "undefined")

/-- `speakText(text)`: posts `{text}` to `/text_to_speech`; on ok plays the
returned blob; on non-ok renders the JSON error field as a System message;
a rejected fetch or an unparseable error body lands in the catch, which
renders the fixed failure message.  Returns the issued requests, the clip
handed to the audio element if any, and the rendered lines. -/
def speakText (text : String) (o : TtsOutcome) :
    List Request × Option (List Nat) × List RenderedMsg :=
  ([Request.textToSpeech text],
   match o with
   | TtsOutcome.reject => (none, [displayMessage "System" ttsFailText false])
   | TtsOutcome.success clip => (some clip, [])
   | TtsOutcome.failure _ none => (none, [displayMessage "System" ttsFailText false])
   | TtsOutcome.failure _ (some b) =>
       (none, [displayMessage "System" (ttsErrText b.error) false]))

/-- Outcome of `navigator.mediaDevices.getUserMedia({audio:true})`: granted,
or rejected with a DOMException whose `name` the handler inspects. -/
inductive MicOutcome where
  | granted
  | denied (errName : String)
deriving DecidableEq, Repr

/-- The System text for a denied microphone permission. -/
def micPermText : String :=
  "Microphone access was denied. Please enable it in your browser's site settings and refresh the page."

/-- The System text for a missing microphone device. -/
def micNoDeviceText : String :=
  "No microphone was found. Please ensure a microphone is connected and enabled."

/-- The System text for any other microphone failure. -/
def micOtherText : String :=
  "Could not access microphone. Please ensure permissions are granted and no other app is using it."

/-- The error-name dispatch of the voice button catch branch. -/
def micErrorText (name : String) : String :=
  if name == "NotAllowedError" || name == "PermissionDeniedError" then micPermText
  else if name == "NotFoundError" || name == "DevicesNotFoundError" then micNoDeviceText
  else micOtherText

/-- The System message rendered when microphone access fails. -/
def micErrorMsg (name : String) : RenderedMsg :=
  displayMessage "System" (micErrorText name) false

/-- The voice button click handler, up to the asynchronous `onstop` work:
with the `recording` class set it stops the recorder and clears the class;
otherwise it requests the microphone, and on grant sets the class and starts
recording, while on denial it clears the class and renders one System
message chosen by the error name.  Returns the new state and the rendered
lines. -/
def voiceClick (st : ClientState) (mic : MicOutcome) :
    ClientState × List RenderedMsg :=
  if st.recording then ({ st with recording := false }, [])
  else
    match mic with
    | MicOutcome.granted => ({ st with recording := true }, [])
    | MicOutcome.denied name =>
        ({ st with recording := false, chatBox := st.chatBox ++ [micErrorMsg name] },
         [micErrorMsg name])

/-- `new Blob(audioChunks)`: the chunks concatenated in order. -/
def blobBytes : List (List Nat) → List Nat
  | [] => []
  | c :: cs => c ++ blobBytes cs

/-- The JSON body of a `/speech_to_text` response, as far as the script
reads it: the `text` and `error` fields. -/
structure SttJson where
  text : Option String
  error : Option String
deriving DecidableEq, Repr

/-- Outcome of a `fetch("/speech_to_text", ...)`: rejection, or a response
whose body fails to parse (`none`) or parses to an `SttJson`; the handler
never inspects the status. -/
inductive SttOutcome where
  | reject
  | response (ok : Bool) (status : Nat) (body : Option SttJson)
deriving DecidableEq, Repr

/-- The fixed failure text rendered by the catch of the `onstop` handler. -/
def sttFailText : String := "Could not process audio for transcription."

/-- The message rendered by the catch branch of the `onstop` handler. -/
def sttFailMsg : RenderedMsg := displayMessage "System" sttFailText false

/-- The System line rendered for a server-reported transcription error. -/
def sttErrText (e : String) : String := "Speech-to-Text Error: " ++ e

/-- The `else if (data.error)` branch of the `onstop` handler: the JavaScript
truthiness test renders nothing for an absent or empty `error` field. -/
def sttHandleError (st : ClientState) (req : Request) (e : Option String) :
    ClientState × List Request × List RenderedMsg :=
  match e with
  | some err =>
      if err == "" then (st, [req], [])
      else
        let m := displayMessage "System" (sttErrText err) false
        ({ st with chatBox := st.chatBox ++ [m] }, [req], [m])
  | none => (st, [req], [])

/-- `mediaRecorder.onstop`: assemble the collected chunks into one blob,
post it to `/speech_to_text`, and dispatch on the JSON body: a truthy `text`
field is written into the input and sent via `sendMessage` (which issues its
own `/chat` request against `chatO`); otherwise a truthy `error` field is
rendered as a System message; a rejected fetch or unparseable body lands in
the catch, which renders the fixed failure message. -/
def recorderOnStop (st : ClientState) (chunks : List (List Nat))
    (o : SttOutcome) (chatO : ChatOutcome) :
    ClientState × List Request × List RenderedMsg :=
  let req := Request.speechToText (blobBytes chunks)
  let fail := ({ st with chatBox := st.chatBox ++ [sttFailMsg] }, [req], [sttFailMsg])
  match o with
  | SttOutcome.reject => fail
  | SttOutcome.response _ _ none => fail
  | SttOutcome.response _ _ (some b) =>
      match b.text with
      | some t =>
          if t == "" then sttHandleError st req b.error
          else
            let st1 : ClientState := { st with userInput := t }
            let out := sendMessage st1 chatO
            (out.1, req :: out.2.1, out.2.2)
      | none => sttHandleError st req b.error

/-- The fixed System announcement rendered by `switchMode`. -/
def modeAnnouncement (mode : String) : String :=
  if mode == "mental_health" then
    "Switched to Mental Health Assistant mode. How are you feeling today?"
  else
    "Switched to AI Study Buddy mode. What would you like to learn about?"

/-- `switchMode(newMode)`: set the mode, move the `active` class, and render
the announcement for the new mode.  Returns the new state and the rendered
lines. -/
def switchMode (st : ClientState) (newMode : String) :
    ClientState × List RenderedMsg :=
  let announce := displayMessage "System" (modeAnnouncement newMode) false
  ({ st with currentChatMode := newMode
             activeModeButton := newMode
             chatBox := st.chatBox ++ [announce] },
   [announce])

/-- A mode button click handler: when the requested mode differs from the
current one, clear the chat box, switch the mode, and send a fresh initial
greeting (whose reply renders against `o`); otherwise do nothing. -/
def modeButtonClick (st : ClientState) (target : String) (o : ChatOutcome) :
    ClientState × List Request × List RenderedMsg :=
  if st.currentChatMode == target then (st, [], [])
  else
    let cleared : ClientState := { st with chatBox := [] }
    let sw := switchMode cleared target
    let greet := sendInitialGreeting sw.1.currentChatMode o
    ({ sw.1 with chatBox := sw.1.chatBox ++ greet.2 }, greet.1, sw.2 ++ greet.2)

/-- Whether a request targets the `/speech_to_text` endpoint. -/
def isSttRequest : Request → Bool
  | Request.speechToText _ => true
  | _ => false

/-- The combined effect of both replacements on a single character. -/
def escapeChar (c : Char) : List Char :=
  if c = '<' then ltEscape else if c = '>' then gtEscape else [c]

/-- `escapeChar` mapped over a character list. -/
def escapeAll : List Char → List Char
  | [] => []
  | c :: cs => escapeChar c ++ escapeAll cs

lemma replaceChar_append (p : Char) (r a b : List Char) :
    replaceChar p r (a ++ b) = replaceChar p r a ++ replaceChar p r b := by
  induction a with
  | nil => simp [replaceChar]
  | cons x xs ih => simp [replaceChar, ih]

lemma sanitizeChars_cons (c : Char) (cs : List Char) :
    sanitizeChars (c :: cs) = escapeChar c ++ sanitizeChars cs := by
  by_cases h1 : c = '<'
  · subst h1
    simp [sanitizeChars, replaceChar, replaceChar_append, escapeChar, ltEscape, gtEscape]
  · by_cases h2 : c = '>'
    · subst h2
      simp [sanitizeChars, replaceChar, replaceChar_append, escapeChar, ltEscape, gtEscape]
    · simp [sanitizeChars, replaceChar, replaceChar_append, escapeChar, h1, h2]

lemma sanitizeChars_eq_escapeAll (t : List Char) :
    sanitizeChars t = escapeAll t := by
  induction t with
  | nil => rfl
  | cons c cs ih => rw [sanitizeChars_cons, escapeAll, ih]

lemma sanitizeChars_no_angle (t : List Char) :
    ∀ c ∈ sanitizeChars t, c ≠ '<' ∧ c ≠ '>' := by
  induction t with
  | nil => intro c hc; simp [sanitizeChars, replaceChar] at hc
  | cons a as ih =>
      intro c hc
      rw [sanitizeChars_cons] at hc
      rcases List.mem_append.mp hc with h | h
      · unfold escapeChar at h
        by_cases h1 : a = '<'
        · simp [h1, ltEscape] at h
          rcases h with rfl | rfl | rfl | rfl <;> exact ⟨by decide, by decide⟩
        · by_cases h2 : a = '>'
          · simp [h1, h2, gtEscape] at h
            rcases h with rfl | rfl | rfl | rfl <;> exact ⟨by decide, by decide⟩
          · simp [h1, h2] at h
            subst h
            exact ⟨h1, h2⟩
      · exact ih c h

/-- Claim C2: for every input text t, the line produced by displayMessage is
the sanitized text, obtained by replacing every less-than sign with the
escape ampersand-l-t and every greater-than sign with ampersand-g-t, so the
text part of the inserted line contains no raw angle bracket from t. -/
theorem C2_escaped_rendering (s t : String) (b : Bool) :
    (displayMessage s t b).line = sanitize t
  ∧ (sanitize t).data = escapeAll t.data
  ∧ escapeChar '<' = ltEscape
  ∧ escapeChar '>' = gtEscape
  ∧ messageHTML s t = "<strong>" ++ s ++ ":</strong> " ++ sanitize t
  ∧ ∀ c ∈ (sanitize t).data, c ≠ '<' ∧ c ≠ '>' := by
  refine ⟨rfl, sanitizeChars_eq_escapeAll t.data, rfl, rfl, rfl, ?_⟩
  intro c hc
  exact sanitizeChars_no_angle t.data c hc

/-- Witness for C2 at a concrete markup-bearing input. -/
theorem C2_escaped_rendering_witness :
    ('&' ∈ (sanitize "<b>hi</b>").data)
  ∧ ('&' ≠ '<' ∧ '&' ≠ '>')
  ∧ sanitize "<b>hi</b>" = "&lt;b&gt;hi&lt;/b&gt;" :=
  ⟨by decide, (C2_escaped_rendering "MindMate" "<b>hi</b>" true).2.2.2.2.2 '&' (by decide),
   by decide⟩

/-- Claim C3: when the input field trims to the empty string, sendMessage
returns before doing anything: no request is issued, nothing is rendered,
and the whole client state (chat box, input field, mode) is unchanged. -/
theorem C3_empty_input_noop (st : ClientState) (o : ChatOutcome)
    (h : jsTrim st.userInput = "") : sendMessage st o = (st, [], []) := by
  unfold sendMessage
  simp [h]

/-- Witness for C3 on a whitespace-only input field. -/
theorem C3_empty_input_noop_witness :
    jsTrim "   " = ""
  ∧ sendMessage { initialState with userInput := "   " } ChatOutcome.reject
      = ({ initialState with userInput := "   " }, [], []) :=
  ⟨by decide,
   C3_empty_input_noop { initialState with userInput := "   " } ChatOutcome.reject
     (by decide)⟩

/-- Claim C10: the listen affordance captures the original reply text, not
the sanitized rendering, and speakText posts exactly that text to the
text-to-speech endpoint, so synthesis round-trips the exact server reply. -/
theorem C10_speak_payload_unescaped (s t : String) (canSpeak : Bool)
    (o : TtsOutcome) :
    (displayMessage s t canSpeak).speakPayload
      = (if canSpeak && (s == "MindMate") then some t else none)
  ∧ (displayMessage "MindMate" t true).speakPayload = some t
  ∧ (speakText t o).1 = [Request.textToSpeech t]
  ∧ (displayMessage "MindMate" "<b>" true).speakPayload = some "<b>"
  ∧ sanitize "<b>" ≠ "<b>" :=
  ⟨rfl, rfl, rfl, rfl, by decide⟩

/-- Claim C1 counterexample: sendInitialGreeting never inspects the HTTP
status, so a non-2xx bootstrap /chat response whose JSON body carries a
response field is rendered exactly like a 200 success — as one normal
speakable MindMate reply — and no failure message (System-style or the fixed
bootstrap failure text) is rendered at all. -/
theorem C1_counterexample :
    (sendInitialGreeting "mental_health"
        (ChatOutcome.response false 500 (some { response := some "oops" }))).2
      = [displayMessage "MindMate" "oops" true]
  ∧ (sendInitialGreeting "mental_health"
        (ChatOutcome.response false 500 (some { response := some "oops" }))).2
      = (sendInitialGreeting "mental_health"
          (ChatOutcome.response true 200 (some { response := some "oops" }))).2
  ∧ (displayMessage "MindMate" "oops" true).sender ≠ "System"
  ∧ displayMessage "MindMate" "oops" true ≠ greetFailMsg
  ∧ (displayMessage "MindMate" "oops" true).speakPayload = some "oops" :=
  ⟨rfl, rfl, by decide, by decide, rfl⟩

/-- Claim C1 amended: every rejected fetch, unparseable response body,
handled server-reported error field, and microphone permission or device
error is caught at its call site and converted into exactly one rendered
failure message; a non-success HTTP status is likewise converted in
sendMessage (and in speakText, whose non-ok branch renders the error field);
but sendInitialGreeting and the transcription onstop handler never check the
status and dispatch on the JSON body alone, the bootstrap failure message
appearing exactly when the fetch rejects, the body fails to parse, or the
response field is absent. -/
theorem C1_amended_failure_taxonomy (mode t name e : String)
    (st : ClientState) (s : Nat) (ok : Bool) (body : Option ChatJson)
    (chunks : List (List Nat)) (chatO : ChatOutcome) :
    (sendInitialGreeting mode ChatOutcome.reject).2 = [greetFailMsg]
  ∧ (sendInitialGreeting mode (ChatOutcome.response ok s none)).2 = [greetFailMsg]
  ∧ (sendInitialGreeting mode
        (ChatOutcome.response ok s (some { response := none }))).2 = [greetFailMsg]
  ∧ (sendMessage st ChatOutcome.reject).2.2
      = (if jsTrim st.userInput == "" then []
         else [displayMessage "You" (jsTrim st.userInput) false, sendFailMsg])
  ∧ (sendMessage st (ChatOutcome.response false s body)).2.2
      = (if jsTrim st.userInput == "" then []
         else [displayMessage "You" (jsTrim st.userInput) false, sendFailMsg])
  ∧ (sendMessage st (ChatOutcome.response true s none)).2.2
      = (if jsTrim st.userInput == "" then []
         else [displayMessage "You" (jsTrim st.userInput) false, sendFailMsg])
  ∧ (sendMessage st (ChatOutcome.response true s (some { response := none }))).2.2
      = (if jsTrim st.userInput == "" then []
         else [displayMessage "You" (jsTrim st.userInput) false, sendFailMsg])
  ∧ (speakText t TtsOutcome.reject).2.2 = [displayMessage "System" ttsFailText false]
  ∧ (speakText t (TtsOutcome.failure s none)).2.2
      = [displayMessage "System" ttsFailText false]
  ∧ (speakText t (TtsOutcome.failure s (some { error := some e }))).2.2
      = [displayMessage "System" (ttsErrText (some e)) false]
  ∧ (voiceClick st (MicOutcome.denied name)).1.recording = false
  ∧ (voiceClick st (MicOutcome.denied name)).2
      = (if st.recording then [] else [micErrorMsg name])
  ∧ (recorderOnStop st chunks SttOutcome.reject chatO).2.2 = [sttFailMsg]
  ∧ (recorderOnStop st chunks (SttOutcome.response ok s none) chatO).2.2 = [sttFailMsg]
  ∧ (recorderOnStop st chunks
        (SttOutcome.response ok s (some { text := none, error := some e })) chatO).2.2
      = (if e == "" then [] else [displayMessage "System" (sttErrText e) false]) := by
  refine ⟨rfl, rfl, rfl, ?_, ?_, ?_, ?_, rfl, rfl, rfl, ?_, ?_, rfl, rfl, ?_⟩
  · by_cases h : jsTrim st.userInput = "" <;> simp [sendMessage, h]
  · by_cases h : jsTrim st.userInput = "" <;> simp [sendMessage, h]
  · by_cases h : jsTrim st.userInput = "" <;> simp [sendMessage, h]
  · by_cases h : jsTrim st.userInput = "" <;> simp [sendMessage, h]
  · by_cases h : st.recording <;> simp [voiceClick, h]
  · by_cases h : st.recording <;> simp [voiceClick, h]
  · by_cases h : e = "" <;> simp [recorderOnStop, sttHandleError, h]

/-- Claim C4: with initialHistory undefined or empty, the load handler
issues exactly one /chat request carrying the fixed greeting text and the
current mode, renders the reply of a successful response as one speakable
assistant message, and issues no other request. -/
theorem C4_bootstrap_greeting (mode r : String) (s : Nat) (o : ChatOutcome) :
    (onload none mode o).1 = [Request.chat greetingText mode]
  ∧ (onload (some []) mode o).1 = [Request.chat greetingText mode]
  ∧ onload (some []) mode o = onload none mode o
  ∧ onload none mode o = sendInitialGreeting mode o
  ∧ (onload none mode (ChatOutcome.response true s (some { response := some r }))).2
      = [displayMessage "MindMate" r true]
  ∧ (displayMessage "MindMate" r true).speakPayload = some r
  ∧ greetingText = "Hello MindMate, I'm here." :=
  ⟨rfl, rfl, rfl, rfl, rfl, rfl, rfl⟩

/-- Claim C5: with a non-empty initialHistory, the load handler renders one
line per entry in order via renderHistoryEntry, labels user-role entries as
the user and every other role as the assistant, attaches the listen
affordance exactly to model-role entries, and issues no request. -/
theorem C5_history_replay (h : List HistMsg) (mode t role : String)
    (o : ChatOutcome) :
    (h ≠ [] → onload (some h) mode o = ([], h.map renderHistoryEntry))
  ∧ (renderHistoryEntry { role := "user", text := t }).sender = "You"
  ∧ (renderHistoryEntry { role := "user", text := t }).speakPayload = none
  ∧ (renderHistoryEntry { role := "model", text := t }).sender = "MindMate"
  ∧ (renderHistoryEntry { role := "model", text := t }).speakPayload = some t
  ∧ (role ≠ "user" →
      (renderHistoryEntry { role := role, text := t }).sender = "MindMate") := by
  refine ⟨?_, rfl, rfl, rfl, rfl, ?_⟩
  · intro hne
    unfold onload
    simp [List.length_pos, hne]
  · intro hne
    unfold renderHistoryEntry displayMessage
    simp [hne]

/-- Witness for C5 on the two-entry history from the spec. -/
theorem C5_history_replay_witness :
    onload (some [{ role := "user", text := "hi" }, { role := "model", text := "hello" }])
        "mental_health" ChatOutcome.reject
      = ([], [displayMessage "You" "hi" false, displayMessage "MindMate" "hello" true])
  ∧ (renderHistoryEntry { role := "system", text := "x" }).sender = "MindMate" := by
  constructor
  · have h1 := (C5_history_replay
      [{ role := "user", text := "hi" }, { role := "model", text := "hello" }]
      "mental_health" "t" "r" ChatOutcome.reject).1 (by decide)
    exact h1.trans (by decide)
  · exact (C5_history_replay [] "m" "x" "system" ChatOutcome.reject).2.2.2.2.2 (by decide)

lemma sendInitialGreeting_no_system (mode : String) (o : ChatOutcome) :
    (sendInitialGreeting mode o).2.filter (fun m => m.sender == "System") = [] := by
  cases o with
  | reject => rfl
  | response ok s body =>
      rcases body with _ | b
      · rfl
      · rcases hb : b.response with _ | r <;>
          simp [sendInitialGreeting, hb, displayMessage, greetFailMsg]

lemma sendMessage_requests (st : ClientState) (o : ChatOutcome) :
    (sendMessage st o).2.1
      = if jsTrim st.userInput == "" then []
        else [Request.chat (jsTrim st.userInput) st.currentChatMode] := by
  by_cases h : jsTrim st.userInput = ""
  · simp [sendMessage, h]
  · cases o with
    | reject => simp [sendMessage, h]
    | response ok s body =>
        rcases body with _ | b
        · cases ok <;> simp [sendMessage, h]
        · rcases hb : b.response with _ | r <;> cases ok <;>
            simp [sendMessage, h, hb]

lemma sendMessage_no_stt (st : ClientState) (o : ChatOutcome) :
    (sendMessage st o).2.1.filter isSttRequest = [] := by
  rw [sendMessage_requests]
  split <;> simp [isSttRequest]

/-- Claim C6: a mode button click with a different target clears the chat
box, sets the mode, renders exactly one System announcement (the fixed one
for the new mode), and issues exactly one fresh bootstrap /chat call; a
click on the already-active mode changes nothing. -/
theorem C6_mode_switch (st : ClientState) (target : String) (o : ChatOutcome) :
    (st.currentChatMode = target → modeButtonClick st target o = (st, [], []))
  ∧ (st.currentChatMode ≠ target →
       (modeButtonClick st target o).1.currentChatMode = target
     ∧ (modeButtonClick st target o).2.1 = [Request.chat greetingText target]
     ∧ (modeButtonClick st target o).2.2
         = displayMessage "System" (modeAnnouncement target) false
             :: (sendInitialGreeting target o).2
     ∧ (modeButtonClick st target o).1.chatBox = (modeButtonClick st target o).2.2
     ∧ (modeButtonClick st target o).2.2.filter (fun m => m.sender == "System")
         = [displayMessage "System" (modeAnnouncement target) false]) := by
  constructor
  · intro h
    simp [modeButtonClick, h]
  · intro h
    have hne : (st.currentChatMode == target) = false := by simp [h]
    refine ⟨?_, ?_, ?_, ?_, ?_⟩
    · simp [modeButtonClick, hne, switchMode]
    · simp [modeButtonClick, hne, switchMode, sendInitialGreeting]
    · simp [modeButtonClick, hne, switchMode]
    · simp [modeButtonClick, hne, switchMode]
    · simp [modeButtonClick, hne, switchMode, displayMessage,
        sendInitialGreeting_no_system]

/-- Witness for C6: a same-mode click is inert, a different-mode click
switches and re-bootstraps. -/
theorem C6_mode_switch_witness :
    modeButtonClick initialState "mental_health" ChatOutcome.reject
      = (initialState, [], [])
  ∧ (modeButtonClick initialState "study_buddy" ChatOutcome.reject).1.currentChatMode
      = "study_buddy"
  ∧ (modeButtonClick initialState "study_buddy" ChatOutcome.reject).2.1
      = [Request.chat greetingText "study_buddy"] :=
  ⟨(C6_mode_switch initialState "mental_health" ChatOutcome.reject).1 rfl,
   ((C6_mode_switch initialState "study_buddy" ChatOutcome.reject).2 (by decide)).1,
   ((C6_mode_switch initialState "study_buddy" ChatOutcome.reject).2 (by decide)).2.1⟩

/-- Claim C7: a /chat response with a non-ok status makes sendMessage render
exactly the optimistic user echo followed by the one fixed-text failure
message; no speakable assistant reply is rendered and the failure is fully
handled inside the function. -/
theorem C7_non2xx_failure (st : ClientState) (s : Nat) (body : Option ChatJson)
    (h : jsTrim st.userInput ≠ "") :
    (sendMessage st (ChatOutcome.response false s body)).2.2
        = [displayMessage "You" (jsTrim st.userInput) false, sendFailMsg]
  ∧ sendFailMsg = displayMessage "MindMate" sendFailText false
  ∧ sendFailText = "Sorry, I'm having trouble responding right now. Please try again."
  ∧ displayMessage "You" (jsTrim st.userInput) false ≠ sendFailMsg
  ∧ (∀ m ∈ (sendMessage st (ChatOutcome.response false s body)).2.2,
        m.speakPayload = none) := by
  refine ⟨by simp [sendMessage, h], rfl, rfl, ?_, ?_⟩
  · simp [displayMessage, sendFailMsg]
  · intro m hm
    simp [sendMessage, h] at hm
    rcases hm with rfl | rfl
    · rfl
    · rfl

/-- Witness for C7 at a concrete non-empty input and a 500 response. -/
theorem C7_non2xx_failure_witness :
    (sendMessage { initialState with userInput := "hi" }
        (ChatOutcome.response false 500 none)).2.2
      = [displayMessage "You" "hi" false, sendFailMsg] :=
  (C7_non2xx_failure { initialState with userInput := "hi" } 500 none
    (by decide)).1

lemma recorderOnStop_first_request (st : ClientState) (chunks : List (List Nat))
    (o : SttOutcome) (chatO : ChatOutcome) :
    (recorderOnStop st chunks o chatO).2.1.head?
      = some (Request.speechToText (blobBytes chunks)) := by
  cases o with
  | reject => rfl
  | response ok s body =>
      rcases body with _ | b
      · rfl
      · rcases hbt : b.text with _ | t
        · rcases hbe : b.error with _ | e
          · simp [recorderOnStop, hbt, sttHandleError, hbe]
          · by_cases he : e = "" <;>
              simp [recorderOnStop, hbt, sttHandleError, hbe, he]
        · by_cases ht : t = ""
          · rcases hbe : b.error with _ | e
            · simp [recorderOnStop, hbt, ht, sttHandleError, hbe]
            · by_cases he : e = "" <;>
                simp [recorderOnStop, hbt, ht, sttHandleError, hbe, he]
          · simp [recorderOnStop, hbt, ht]

lemma recorderOnStop_stt_requests (st : ClientState) (chunks : List (List Nat))
    (o : SttOutcome) (chatO : ChatOutcome) :
    (recorderOnStop st chunks o chatO).2.1.filter isSttRequest
      = [Request.speechToText (blobBytes chunks)] := by
  cases o with
  | reject => rfl
  | response ok s body =>
      rcases body with _ | b
      · rfl
      · rcases hbt : b.text with _ | t
        · rcases hbe : b.error with _ | e
          · simp [recorderOnStop, hbt, sttHandleError, hbe, isSttRequest]
          · by_cases he : e = "" <;>
              simp [recorderOnStop, hbt, sttHandleError, hbe, he, isSttRequest]
        · by_cases ht : t = ""
          · rcases hbe : b.error with _ | e
            · simp [recorderOnStop, hbt, ht, sttHandleError, hbe, isSttRequest]
            · by_cases he : e = "" <;>
                simp [recorderOnStop, hbt, ht, sttHandleError, hbe, he, isSttRequest]
          · simp [recorderOnStop, hbt, ht, isSttRequest, sendMessage_no_stt]

/-- Claim C8: stopping a recording with an empty chunk sequence still
assembles the zero-byte payload and submits exactly one /speech_to_text
request (the first request issued), never skipping the transcription call. -/
theorem C8_empty_recording_still_submits (st : ClientState) (o : SttOutcome)
    (chatO : ChatOutcome) (chunks : List (List Nat)) :
    blobBytes [] = []
  ∧ (recorderOnStop st [] o chatO).2.1.head? = some (Request.speechToText [])
  ∧ (recorderOnStop st [] o chatO).2.1.filter isSttRequest
      = [Request.speechToText []]
  ∧ (recorderOnStop st chunks o chatO).2.1.head?
      = some (Request.speechToText (blobBytes chunks)) :=
  ⟨rfl, recorderOnStop_first_request st [] o chatO,
   recorderOnStop_stt_requests st [] o chatO,
   recorderOnStop_first_request st chunks o chatO⟩

/-- Claim C9: the recording flag becomes set only by a start request whose
microphone permission was granted; on denial the flag stays cleared and one
System message chosen by the failure category is rendered, the permission,
missing-device and other categories having the three fixed texts. -/
theorem C9_recording_only_when_granted (st : ClientState) (mic : MicOutcome)
    (name : String) :
    ((voiceClick st mic).1.recording = true →
        st.recording = false ∧ mic = MicOutcome.granted)
  ∧ (st.recording = false →
        (voiceClick st (MicOutcome.denied name)).1.recording = false
      ∧ (voiceClick st (MicOutcome.denied name)).2 = [micErrorMsg name])
  ∧ micErrorMsg "NotAllowedError" = displayMessage "System" micPermText false
  ∧ micErrorMsg "PermissionDeniedError" = displayMessage "System" micPermText false
  ∧ micErrorMsg "NotFoundError" = displayMessage "System" micNoDeviceText false
  ∧ micErrorMsg "DevicesNotFoundError" = displayMessage "System" micNoDeviceText false
  ∧ micErrorMsg "SomeOtherError" = displayMessage "System" micOtherText false := by
  refine ⟨?_, ?_, rfl, rfl, rfl, rfl, rfl⟩
  · intro h
    by_cases hr : st.recording
    · simp [voiceClick, hr] at h
    · cases mic with
      | granted => exact ⟨by simpa using hr, rfl⟩
      | denied n => simp [voiceClick, hr] at h
  · intro h
    constructor <;> simp [voiceClick, h]

/-- Witness for C9: a granted start from idle reaches Recording, a denied
start from idle stays idle and renders the category message. -/
theorem C9_recording_only_when_granted_witness :
    (initialState.recording = false ∧ MicOutcome.granted = MicOutcome.granted)
  ∧ (voiceClick initialState (MicOutcome.denied "NotAllowedError")).1.recording = false
  ∧ (voiceClick initialState (MicOutcome.denied "NotAllowedError")).2
      = [micErrorMsg "NotAllowedError"] :=
  ⟨(C9_recording_only_when_granted initialState MicOutcome.granted "x").1 rfl,
   ((C9_recording_only_when_granted initialState (MicOutcome.denied "NotAllowedError")
      "NotAllowedError").2.1 rfl).1,
   ((C9_recording_only_when_granted initialState (MicOutcome.denied "NotAllowedError")
      "NotAllowedError").2.1 rfl).2⟩

end MindMates
